import Mathlib

/-!
Verification of the `create_ticket` instruction of the Tickr program
(`src/tickr/programs/tickr/src/instructions/create_ticket.rs`).

The instruction is shallowly embedded as a pure Lean function over an
explicit chain state (payer balance, treasury balance, list of minted
assets).  Machine integers (`u32`, `u64`) are modelled as `Nat` with the
explicit bounds `u32Max` / `u64Max` where overflow matters.  Fallible
steps are modelled with `Except`; the Solana runtime's transaction
atomicity (all effects roll back on error) is modelled by the
`committed` function.  External nondeterminism (the mpl-core create CPI
rejecting the request) is modelled by the boolean parameter
`mplRejects`.
-/

/-- Largest value of a Rust `u32`. -/
def u32Max : Nat := 4294967295

/-- Largest value of a Rust `u64` (lamport amounts). -/
def u64Max : Nat := 18446744073709551615

/-- `mpl_core::types::Attribute`: a key/value string pair. -/
structure Attribute where
  key : String
  value : String
deriving Repr, DecidableEq

/-- The part of `mpl_core::accounts::BaseCollectionV1` read by the
instruction, together with the attribute list of the collection's
`Attributes` plugin (fetched via `fetch_plugin`).  `num_minted` is a
`u32` field of `BaseCollectionV1`. -/
structure EventCollection where
  num_minted : Nat
  attribute_list : List Attribute
deriving Repr, DecidableEq

/-- `CreateTicketArgs` from the source.  `price` is a `u64`;
`venue_authority` is a `Pubkey`, modelled as a `Nat` identifier. -/
structure CreateTicketArgs where
  name : String
  uri : String
  price : Nat
  venue_authority : Nat
  screen : Option String
  row : Option String
  seat : Option String
deriving Repr, DecidableEq

/-- The accounts of the `CreateTicket` context that the instruction
logic reads, each modelled as a `Nat` pubkey identifier, plus the
manager PDA's stored bump. -/
structure CreateTicketAccounts where
  payer : Nat
  manager : Nat
  manager_bump : Nat
  organizer : Nat
  event : Nat
  ticket : Nat
  treasury : Nat
deriving Repr, DecidableEq

/-- `crate::error::TicketError` variants used by `create_ticket`. -/
inductive TicketError where
  | MissingCapacityAttribute
  | NumericalOverflow
  | MaximumTicketsReached
deriving Repr, DecidableEq

/-- Errors the instruction can surface: its own `TicketError`s, a
failure of the system-program transfer CPI (insufficient payer funds or
lamport overflow), or a rejection by the mpl-core create CPI. -/
inductive ProgramError where
  | ticket (e : TicketError)
  | systemTransferFailed
  | mplCoreRejected
deriving Repr, DecidableEq

/-- `mpl_core::types::PluginAuthority` (the two variants used). -/
inductive PluginAuthority where
  | UpdateAuthority
  | Address (address : Nat)
deriving Repr, DecidableEq

/-- `mpl_core::types::Plugin` restricted to the variants the
instruction constructs. -/
inductive Plugin where
  | Attributes (attribute_list : List Attribute)
  | PermanentFreezeDelegate (frozen : Bool)
  | PermanentBurnDelegate
  | PermanentTransferDelegate
deriving Repr, DecidableEq

/-- `mpl_core::types::PluginAuthorityPair`. -/
structure PluginAuthorityPair where
  plugin : Plugin
  authority : Option PluginAuthority
deriving Repr, DecidableEq

/-- `mpl_core::types::ExternalPluginAdapterSchema` (variant used). -/
inductive ExternalPluginAdapterSchema where
  | Binary
deriving Repr, DecidableEq

/-- `mpl_core::types::AppDataInitInfo`. -/
structure AppDataInitInfo where
  init_plugin_authority : Option PluginAuthority
  data_authority : PluginAuthority
  schema : Option ExternalPluginAdapterSchema
deriving Repr, DecidableEq

/-- `mpl_core::types::ExternalPluginAdapterInitInfo` (variant used). -/
inductive ExternalPluginAdapterInitInfo where
  | AppData (info : AppDataInitInfo)
deriving Repr, DecidableEq

/-- One PDA signer seed of the `invoke_signed` call: a literal byte
string, an account key, or the bump byte. -/
inductive Seed where
  | tag (s : String)
  | account (k : Nat)
  | bumpByte (b : Nat)
deriving Repr, DecidableEq

/-- The fully assembled `CreateV2CpiBuilder` invocation: every piece of
data lines 196-209 of the source pass to mpl-core. -/
structure MintCall where
  asset : Nat
  collection : Option Nat
  payer : Nat
  authority : Option Nat
  owner : Option Nat
  name : String
  uri : String
  plugins : List PluginAuthorityPair
  external_plugin_adapters : List ExternalPluginAdapterInitInfo
  signer_seeds : List Seed
deriving Repr, DecidableEq

/-- The on-chain state the instruction can affect: the payer's and the
treasury's lamport balances and the list of minted ticket assets. -/
structure ChainState where
  payer_balance : Nat
  treasury_balance : Nat
  assets : List MintCall
deriving Repr, DecidableEq

/-- An externally visible effect the instruction attempts. -/
inductive Effect where
  | transferLamports (source dest amount : Nat)
  | createAsset (call : MintCall)
deriving Repr, DecidableEq

/-- Result of one execution of the instruction body: the `Result<()>`
outcome (with the state the transaction would commit on success) and
the list of CPI effects that were attempted, in order. -/
structure TicketOutcome where
  result : Except ProgramError ChainState
  attempted : List Effect
deriving Repr

/-- `find(|attr| attr.key == k)` on an attribute list. -/
def find_attribute (l : List Attribute) (k : String) : Option Attribute :=
  l.find? fun attr => attr.key == k

/-- The value denoted by a list of decimal digit characters. -/
def digits_value (ds : List Char) : Nat :=
  ds.foldl (fun acc c => acc * 10 + (c.toNat - 48)) 0

/-- Digit-sequence part of Rust `u32::from_str`: one or more ASCII
digits whose value fits in a `u32`; anything else (empty input, other
characters, overflow) fails. -/
def parse_digits_u32 (ds : List Char) : Option Nat :=
  if ds = [] then none
  else if ds.all Char.isDigit then
    if digits_value ds ≤ u32Max then some (digits_value ds) else none
  else none

/-- Rust `str::parse::<u32>`: an optional leading `+`, then one or more
ASCII digits denoting a value that fits in a `u32`. -/
def parse_u32 (s : String) : Option Nat :=
  match s.data with
  | [] => parse_digits_u32 []
  | c :: rest => if c = '+' then parse_digits_u32 rest else parse_digits_u32 (c :: rest)

/-- ASCII lowercasing of one character, as Rust `to_lowercase` acts on
the ASCII range (the only range that can produce `"true"`). -/
def lower_char (c : Char) : Char :=
  if 'A' ≤ c ∧ c ≤ 'Z' then Char.ofNat (c.toNat + 32) else c

/-- Rust `str::to_lowercase` restricted to ASCII case mapping. -/
def to_lowercase (s : String) : String :=
  String.mk (s.data.map lower_char)

/-- `u32::checked_add`: `some` of the sum when it fits in a `u32`,
`none` on overflow. -/
def checked_add_u32 (a b : Nat) : Option Nat :=
  if a + b ≤ u32Max then some (a + b) else none

/-- Lines 113-121 of the source: the `Ticket Number` attribute, built
with `num_minted.checked_add(1)` and failing with `NumericalOverflow`
when the `u32` increment overflows. -/
def ticket_number_attribute (num_minted : Nat) : Except ProgramError Attribute :=
  match checked_add_u32 num_minted 1 with
  | none => .error (.ticket .NumericalOverflow)
  | some n => .ok { key := "Ticket Number", value := toString n }

/-- Lines 128-150: push an optional attribute only when the argument is
supplied. -/
def opt_attribute (k : String) (v : Option String) : List Attribute :=
  match v with
  | none => []
  | some s => [{ key := k, value := s }]

/-- Lines 113-150: the new ticket's ordered attribute list, given the
already-built `Ticket Number` attribute. -/
def build_attribute_list (tn : Attribute) (args : CreateTicketArgs) : List Attribute :=
  [tn, { key := "Price", value := toString args.price }]
    ++ opt_attribute "Row" args.row
    ++ opt_attribute "Seat" args.seat
    ++ opt_attribute "Screen" args.screen

/-- Lines 157-162: whether the collection's `IsTicketTransferable`
attribute, lowercased, equals `"true"`; absent attribute defaults to
`false`. -/
def is_ticket_transferable (l : List Attribute) : Bool :=
  match find_attribute l "IsTicketTransferable" with
  | some attr => to_lowercase attr.value == "true"
  | none => false

/-- Lines 111-179: the four plugins pushed onto `ticket_plugin`, in
source order. -/
def build_ticket_plugin (al : List Attribute) (transferable : Bool) :
    List PluginAuthorityPair :=
  [ { plugin := .Attributes al, authority := some .UpdateAuthority },
    { plugin := .PermanentFreezeDelegate (!transferable),
      authority := some .UpdateAuthority },
    { plugin := .PermanentBurnDelegate, authority := some .UpdateAuthority },
    { plugin := .PermanentTransferDelegate, authority := some .UpdateAuthority } ]

/-- Lines 181-189: the single `AppData` external plugin adapter. -/
def build_external_plugin (args : CreateTicketArgs) :
    List ExternalPluginAdapterInitInfo :=
  [ .AppData { init_plugin_authority := some .UpdateAuthority,
               data_authority := .Address args.venue_authority,
               schema := some .Binary } ]

/-- Lines 191-193: the PDA signer seeds
`[b"manager", organizer.key(), [manager.bump]]`. -/
def manager_signer_seeds (acc : CreateTicketAccounts) : List Seed :=
  [.tag "manager", .account acc.organizer, .bumpByte acc.manager_bump]

/-- Lines 196-209: the fully assembled `CreateV2CpiBuilder` call. -/
def build_mint_call (acc : CreateTicketAccounts) (ev : EventCollection)
    (args : CreateTicketArgs) (tn : Attribute) : MintCall :=
  { asset := acc.ticket
    collection := some acc.event
    payer := acc.payer
    authority := some acc.manager
    owner := some acc.payer
    name := args.name
    uri := args.uri
    plugins := build_ticket_plugin (build_attribute_list tn args)
                 (is_ticket_transferable ev.attribute_list)
    external_plugin_adapters := build_external_plugin args
    signer_seeds := manager_signer_seeds acc }

/-- The body of `CreateTicket::create_ticket` (lines 68-212), in source
order: locate and parse the `Capacity` attribute, require
`num_minted < capacity`, transfer `price` lamports from payer to
treasury via the system program (which fails when the payer balance is
insufficient or the treasury balance would overflow a `u64`), build the
ticket's attributes and plugins, and invoke the mpl-core create CPI
(whose external accept/reject decision is the parameter
`mplRejects`). -/
def create_ticket (acc : CreateTicketAccounts) (st : ChainState)
    (ev : EventCollection) (args : CreateTicketArgs) (mplRejects : Bool) :
    TicketOutcome :=
  match find_attribute ev.attribute_list "Capacity" with
  | none => { result := .error (.ticket .MissingCapacityAttribute), attempted := [] }
  | some capacity_attribute =>
    match parse_u32 capacity_attribute.value with
    | none => { result := .error (.ticket .NumericalOverflow), attempted := [] }
    | some capacity =>
      if ev.num_minted < capacity then
        if args.price ≤ st.payer_balance ∧ st.treasury_balance + args.price ≤ u64Max then
          match ticket_number_attribute ev.num_minted with
          | .error e =>
            { result := .error e,
              attempted := [.transferLamports acc.payer acc.treasury args.price] }
          | .ok tn =>
            if mplRejects then
              { result := .error .mplCoreRejected,
                attempted := [.transferLamports acc.payer acc.treasury args.price,
                              .createAsset (build_mint_call acc ev args tn)] }
            else
              { result := .ok
                  { payer_balance := st.payer_balance - args.price,
                    treasury_balance := st.treasury_balance + args.price,
                    assets := st.assets ++ [build_mint_call acc ev args tn] },
                attempted := [.transferLamports acc.payer acc.treasury args.price,
                              .createAsset (build_mint_call acc ev args tn)] }
        else
          { result := .error .systemTransferFailed,
            attempted := [.transferLamports acc.payer acc.treasury args.price] }
      else { result := .error (.ticket .MaximumTicketsReached), attempted := [] }

/-- Solana transaction semantics: on error every effect of the
transaction is rolled back, so the committed state is the initial one;
on success the returned state is committed. -/
def committed (st : ChainState) (o : TicketOutcome) : ChainState :=
  match o.result with
  | .ok st1 => st1
  | .error _ => st

/-- The attribute list carried by a mint call's `Attributes` plugin
(empty when no such plugin is attached). -/
def mint_attributes (c : MintCall) : List Attribute :=
  (c.plugins.findSome? fun p =>
    match p.plugin with
    | .Attributes al => some al
    | _ => none).getD []

/-- The `frozen` flag of a mint call's permanent freeze delegate, when
one is attached. -/
def mint_frozen (c : MintCall) : Option Bool :=
  c.plugins.findSome? fun p =>
    match p.plugin with
    | .PermanentFreezeDelegate f => some f
    | _ => none

/-- Whether a mint call attaches a permanent burn delegate. -/
def has_burn_delegate (c : MintCall) : Bool :=
  c.plugins.any fun p => p.plugin == .PermanentBurnDelegate

/-- Whether a mint call attaches a permanent transfer delegate. -/
def has_transfer_delegate (c : MintCall) : Bool :=
  c.plugins.any fun p => p.plugin == .PermanentTransferDelegate

/-- Sample accounts for concrete executions. -/
def wacc : CreateTicketAccounts :=
  { payer := 1, manager := 2, manager_bump := 254, organizer := 3,
    event := 4, ticket := 5, treasury := 6 }

/-- Sample initial chain state. -/
def wst : ChainState := { payer_balance := 1000, treasury_balance := 20, assets := [] }

/-- Sample collection with one remaining slot and a transferable flag. -/
def wev : EventCollection :=
  { num_minted := 1,
    attribute_list := [{ key := "Capacity", value := "2" },
                       { key := "IsTicketTransferable", value := "True" }] }

/-- Sample arguments: price 500, a row, no seat or screen. -/
def wargs : CreateTicketArgs :=
  { name := "T", uri := "u", price := 500, venue_authority := 7,
    screen := none, row := some "A", seat := none }

/-- The mint call produced by the sample issuance. -/
def wcall : MintCall := build_mint_call wacc wev wargs { key := "Ticket Number", value := "2" }

/-- The chain state after the sample issuance. -/
def wst1 : ChainState := { payer_balance := 500, treasury_balance := 520, assets := [wcall] }

/-- Sample collection whose capacity is exhausted. -/
def wev_soldout : EventCollection :=
  { num_minted := 2, attribute_list := [{ key := "Capacity", value := "2" }] }

/-- Sample collection with no `Capacity` attribute. -/
def wev_nocap : EventCollection := { num_minted := 0, attribute_list := [] }

/-- Sample collection with a non-numeric `Capacity` attribute. -/
def wev_badcap : EventCollection :=
  { num_minted := 0, attribute_list := [{ key := "Capacity", value := "abc" }] }

/-- Sample collection whose `Capacity` value exceeds the `u32` range. -/
def wev_bigcap : EventCollection :=
  { num_minted := 0, attribute_list := [{ key := "Capacity", value := "4294967296" }] }

theorem ticket_number_attribute_ok (n : Nat) (tn : Attribute)
    (h : ticket_number_attribute n = .ok tn) :
    n + 1 ≤ u32Max ∧ tn = { key := "Ticket Number", value := toString (n + 1) } := by
  unfold ticket_number_attribute checked_add_u32 at h
  split at h
  · exact absurd h (by simp)
  · rename_i heq
    split at heq
    · simp_all
    · simp_all

theorem ticket_number_attribute_error (n : Nat) (e : ProgramError)
    (h : ticket_number_attribute n = .error e) :
    e = .ticket .NumericalOverflow := by
  unfold ticket_number_attribute checked_add_u32 at h
  split at h <;> simp_all

theorem create_ticket_ok_shape (acc : CreateTicketAccounts) (st : ChainState)
    (ev : EventCollection) (args : CreateTicketArgs) (mpl : Bool) (st' : ChainState)
    (h : (create_ticket acc st ev args mpl).result = Except.ok st') :
    args.price ≤ st.payer_balance ∧
    st' = { payer_balance := st.payer_balance - args.price,
            treasury_balance := st.treasury_balance + args.price,
            assets := st.assets ++ [build_mint_call acc ev args
              { key := "Ticket Number", value := toString (ev.num_minted + 1) }] } := by
  unfold create_ticket at h
  split at h
  · simp at h
  · split at h
    · simp at h
    · split at h
      · split at h
        · rename_i hfunds
          split at h
          · simp at h
          · rename_i tn htn
            obtain ⟨hle, rfl⟩ := ticket_number_attribute_ok _ _ htn
            split at h
            · simp at h
            · simp only [Except.ok.injEq] at h
              exact ⟨hfunds.1, h.symm⟩
        · simp at h
      · simp at h

/-- C1: with a present, parseable `Capacity` attribute, `num_minted ≥ capacity`
makes `create_ticket` fail with `MaximumTicketsReached`, attempting no
transfer or asset creation and leaving the committed state untouched;
`num_minted < capacity` passes the check. -/
theorem C1_capacity_guard (acc : CreateTicketAccounts) (st : ChainState)
    (ev : EventCollection) (args : CreateTicketArgs) (mpl : Bool)
    (a : Attribute) (cap : Nat)
    (hfind : find_attribute ev.attribute_list "Capacity" = some a)
    (hparse : parse_u32 a.value = some cap) :
    (cap ≤ ev.num_minted →
      (create_ticket acc st ev args mpl).result
          = .error (.ticket .MaximumTicketsReached)
        ∧ (create_ticket acc st ev args mpl).attempted = []
        ∧ committed st (create_ticket acc st ev args mpl) = st)
    ∧ (ev.num_minted < cap →
      (create_ticket acc st ev args mpl).result
          ≠ .error (.ticket .MaximumTicketsReached)) := by
  constructor
  · intro hge
    have hlt : ¬ ev.num_minted < cap := by omega
    simp [create_ticket, hfind, hparse, hlt, committed]
  · intro hlt
    simp only [create_ticket, hfind, hparse]
    rw [if_pos hlt]
    split
    · split
      · rename_i e heq
        have he := ticket_number_attribute_error _ _ heq
        simp [he]
      · split <;> simp
    · simp

/-- C2: on every failure of `create_ticket` the committed state is the
initial one — payer balance, treasury balance and the asset list are
unchanged. -/
theorem C2_atomic_failure (acc : CreateTicketAccounts) (st : ChainState)
    (ev : EventCollection) (args : CreateTicketArgs) (mpl : Bool)
    (e : ProgramError)
    (h : (create_ticket acc st ev args mpl).result = .error e) :
    (committed st (create_ticket acc st ev args mpl)).payer_balance = st.payer_balance
    ∧ (committed st (create_ticket acc st ev args mpl)).treasury_balance = st.treasury_balance
    ∧ (committed st (create_ticket acc st ev args mpl)).assets = st.assets := by
  unfold committed
  rw [h]
  exact ⟨rfl, rfl, rfl⟩

/-- C3: on success the single new asset's first attribute is
`Ticket Number` with value `num_minted + 1`; the checked `u32` addition
building it fails with `NumericalOverflow` whenever the increment
overflows. -/
theorem C3_ticket_number (acc : CreateTicketAccounts) (st : ChainState)
    (ev : EventCollection) (args : CreateTicketArgs) (mpl : Bool) (st' : ChainState)
    (h : (create_ticket acc st ev args mpl).result = Except.ok st') :
    (∃ call, st'.assets = st.assets ++ [call] ∧
      (mint_attributes call).head?
        = some { key := "Ticket Number", value := toString (ev.num_minted + 1) })
    ∧ (∀ n, u32Max ≤ n →
        ticket_number_attribute n = .error (.ticket .NumericalOverflow)) := by
  obtain ⟨-, rfl⟩ := create_ticket_ok_shape _ _ _ _ _ _ h
  constructor
  · exact ⟨_, rfl, rfl⟩
  · intro n hn
    unfold ticket_number_attribute checked_add_u32
    rw [if_neg (by omega)]

/-- C4: on success the new asset's permanent freeze delegate has
`frozen = !IsTicketTransferable`, the flag being the case-insensitive
comparison of the collection attribute against "true": an absent
attribute gives `frozen = true`, a present one gives `frozen = false`
exactly when its lowercased value is "true". -/
theorem C4_freeze_flag (acc : CreateTicketAccounts) (st : ChainState)
    (ev : EventCollection) (args : CreateTicketArgs) (mpl : Bool) (st' : ChainState)
    (h : (create_ticket acc st ev args mpl).result = Except.ok st') :
    ∃ call, st'.assets = st.assets ++ [call]
      ∧ mint_frozen call = some (!is_ticket_transferable ev.attribute_list)
      ∧ (find_attribute ev.attribute_list "IsTicketTransferable" = none →
           mint_frozen call = some true)
      ∧ (∀ a, find_attribute ev.attribute_list "IsTicketTransferable" = some a →
           mint_frozen call = some (!(to_lowercase a.value == "true"))) := by
  obtain ⟨-, rfl⟩ := create_ticket_ok_shape _ _ _ _ _ _ h
  refine ⟨_, rfl, rfl, ?_, ?_⟩
  · intro hnone
    simp [mint_frozen, build_mint_call, build_ticket_plugin, is_ticket_transferable, hnone]
  · intro a ha
    simp [mint_frozen, build_mint_call, build_ticket_plugin, is_ticket_transferable, ha]

/-- C5: on success the new asset's attribute list is exactly
`Ticket Number`, `Price`, then `Row`/`Seat`/`Screen` in that order, each
present exactly when the corresponding optional argument was supplied. -/
theorem C5_attribute_order (acc : CreateTicketAccounts) (st : ChainState)
    (ev : EventCollection) (args : CreateTicketArgs) (mpl : Bool) (st' : ChainState)
    (h : (create_ticket acc st ev args mpl).result = Except.ok st') :
    ∃ call, st'.assets = st.assets ++ [call] ∧
      mint_attributes call =
        [{ key := "Ticket Number", value := toString (ev.num_minted + 1) },
         { key := "Price", value := toString args.price }]
        ++ (match args.row with
            | none => []
            | some r => [{ key := "Row", value := r }])
        ++ (match args.seat with
            | none => []
            | some s => [{ key := "Seat", value := s }])
        ++ (match args.screen with
            | none => []
            | some s => [{ key := "Screen", value := s }]) := by
  obtain ⟨-, rfl⟩ := create_ticket_ok_shape _ _ _ _ _ _ h
  exact ⟨_, rfl, rfl⟩

/-- C6: on success exactly `price` lamports move from the payer to the
treasury. -/
theorem C6_payment_exact (acc : CreateTicketAccounts) (st : ChainState)
    (ev : EventCollection) (args : CreateTicketArgs) (mpl : Bool) (st' : ChainState)
    (h : (create_ticket acc st ev args mpl).result = Except.ok st') :
    st'.treasury_balance = st.treasury_balance + args.price
    ∧ st'.payer_balance + args.price = st.payer_balance := by
  obtain ⟨hle, rfl⟩ := create_ticket_ok_shape _ _ _ _ _ _ h
  refine ⟨rfl, ?_⟩
  simp only
  omega

/-- C7: every successfully created ticket carries the constant permanent
burn and permanent transfer delegate pairs, whatever the collection's
attributes and the arguments. -/
theorem C7_unconditional_delegates (acc : CreateTicketAccounts) (st : ChainState)
    (ev : EventCollection) (args : CreateTicketArgs) (mpl : Bool) (st' : ChainState)
    (h : (create_ticket acc st ev args mpl).result = Except.ok st') :
    ∃ call, st'.assets = st.assets ++ [call]
      ∧ has_burn_delegate call = true
      ∧ has_transfer_delegate call = true
      ∧ ({ plugin := .PermanentBurnDelegate,
           authority := some .UpdateAuthority } : PluginAuthorityPair) ∈ call.plugins
      ∧ ({ plugin := .PermanentTransferDelegate,
           authority := some .UpdateAuthority } : PluginAuthorityPair) ∈ call.plugins := by
  obtain ⟨-, rfl⟩ := create_ticket_ok_shape _ _ _ _ _ _ h
  refine ⟨_, rfl, rfl, rfl, ?_, ?_⟩
  · simp [build_mint_call, build_ticket_plugin]
  · simp [build_mint_call, build_ticket_plugin]

/-- C8: a missing `Capacity` attribute fails with
`MissingCapacityAttribute`; a present but unparseable one fails with
`NumericalOverflow`. -/
theorem C8_capacity_errors (acc : CreateTicketAccounts) (st : ChainState)
    (ev : EventCollection) (args : CreateTicketArgs) (mpl : Bool) :
    (find_attribute ev.attribute_list "Capacity" = none →
      (create_ticket acc st ev args mpl).result
        = .error (.ticket .MissingCapacityAttribute))
    ∧ (∀ a, find_attribute ev.attribute_list "Capacity" = some a →
        parse_u32 a.value = none →
        (create_ticket acc st ev args mpl).result
          = .error (.ticket .NumericalOverflow)) := by
  constructor
  · intro hnone
    simp [create_ticket, hnone]
  · intro a ha hp
    simp [create_ticket, ha, hp]

theorem parse_u32_overflow (s : String)
    (hne : s.data ≠ []) (hd : s.data.all Char.isDigit = true)
    (hval : u32Max < digits_value s.data) :
    parse_u32 s = none := by
  unfold parse_u32
  cases hsd : s.data with
  | nil => exact absurd hsd hne
  | cons c rest =>
    have hc : c.isDigit := by
      rw [hsd] at hd
      simp [List.all_cons] at hd
      exact hd.1
    have hcp : ¬ c = '+' := by
      intro e
      rw [e] at hc
      exact absurd hc (by decide)
    simp only [if_neg hcp]
    unfold parse_digits_u32
    rw [if_neg (by simp), if_pos (by rw [← hsd]; exact hd), if_neg (by rw [← hsd]; omega)]

/-- C9: capacity is parsed as a `u32`, so a well-formed decimal string
denoting a value above `2^32 - 1` is rejected with `NumericalOverflow`. -/
theorem C9_capacity_is_u32 (acc : CreateTicketAccounts) (st : ChainState)
    (ev : EventCollection) (args : CreateTicketArgs) (mpl : Bool) (a : Attribute)
    (hfind : find_attribute ev.attribute_list "Capacity" = some a)
    (hne : a.value.data ≠ []) (hd : a.value.data.all Char.isDigit = true)
    (hval : u32Max < digits_value a.value.data) :
    (create_ticket acc st ev args mpl).result = .error (.ticket .NumericalOverflow) := by
  have hp := parse_u32_overflow a.value hne hd hval
  simp [create_ticket, hfind, hp]

/-- C10: on success the new asset's owner is the payer, the create CPI's
authority is the manager PDA, and the call is signed with the seeds
`[b"manager", organizer, bump]`. -/
theorem C10_owner_authority_seeds (acc : CreateTicketAccounts) (st : ChainState)
    (ev : EventCollection) (args : CreateTicketArgs) (mpl : Bool) (st' : ChainState)
    (h : (create_ticket acc st ev args mpl).result = Except.ok st') :
    ∃ call, st'.assets = st.assets ++ [call]
      ∧ call.owner = some acc.payer
      ∧ call.authority = some acc.manager
      ∧ call.signer_seeds
          = [Seed.tag "manager", Seed.account acc.organizer,
             Seed.bumpByte acc.manager_bump] := by
  obtain ⟨-, rfl⟩ := create_ticket_ok_shape _ _ _ _ _ _ h
  exact ⟨_, rfl, rfl, rfl, rfl⟩

theorem C1_capacity_guard_witness :
    (create_ticket wacc wst wev_soldout wargs false).result
        = .error (.ticket .MaximumTicketsReached)
      ∧ (create_ticket wacc wst wev_soldout wargs false).attempted = []
      ∧ committed wst (create_ticket wacc wst wev_soldout wargs false) = wst :=
  (C1_capacity_guard wacc wst wev_soldout wargs false
      { key := "Capacity", value := "2" } 2 (by rfl) (by rfl)).1 (by decide)

theorem C2_atomic_failure_witness :
    (committed wst (create_ticket wacc wst wev_nocap wargs false)).payer_balance
        = wst.payer_balance
      ∧ (committed wst (create_ticket wacc wst wev_nocap wargs false)).treasury_balance
          = wst.treasury_balance
      ∧ (committed wst (create_ticket wacc wst wev_nocap wargs false)).assets
          = wst.assets :=
  C2_atomic_failure wacc wst wev_nocap wargs false
    (.ticket .MissingCapacityAttribute) (by rfl)

theorem C3_ticket_number_witness :
    (∃ call, wst1.assets = wst.assets ++ [call] ∧
      (mint_attributes call).head? = some { key := "Ticket Number", value := "2" })
    ∧ (∀ n, u32Max ≤ n →
        ticket_number_attribute n = .error (.ticket .NumericalOverflow)) :=
  C3_ticket_number wacc wst wev wargs false wst1 (by rfl)

theorem C4_freeze_flag_witness :
    ∃ call, wst1.assets = wst.assets ++ [call]
      ∧ mint_frozen call = some (!is_ticket_transferable wev.attribute_list)
      ∧ (find_attribute wev.attribute_list "IsTicketTransferable" = none →
           mint_frozen call = some true)
      ∧ (∀ a, find_attribute wev.attribute_list "IsTicketTransferable" = some a →
           mint_frozen call = some (!(to_lowercase a.value == "true"))) :=
  C4_freeze_flag wacc wst wev wargs false wst1 (by rfl)

theorem C5_attribute_order_witness :
    ∃ call, wst1.assets = wst.assets ++ [call] ∧
      mint_attributes call =
        [{ key := "Ticket Number", value := "2" },
         { key := "Price", value := "500" },
         { key := "Row", value := "A" }] :=
  C5_attribute_order wacc wst wev wargs false wst1 (by rfl)

theorem C6_payment_exact_witness :
    wst1.treasury_balance = wst.treasury_balance + wargs.price
    ∧ wst1.payer_balance + wargs.price = wst.payer_balance :=
  C6_payment_exact wacc wst wev wargs false wst1 (by rfl)

theorem C7_unconditional_delegates_witness :
    ∃ call, wst1.assets = wst.assets ++ [call]
      ∧ has_burn_delegate call = true
      ∧ has_transfer_delegate call = true
      ∧ ({ plugin := .PermanentBurnDelegate,
           authority := some .UpdateAuthority } : PluginAuthorityPair) ∈ call.plugins
      ∧ ({ plugin := .PermanentTransferDelegate,
           authority := some .UpdateAuthority } : PluginAuthorityPair) ∈ call.plugins :=
  C7_unconditional_delegates wacc wst wev wargs false wst1 (by rfl)

theorem C8_capacity_errors_witness :
    (create_ticket wacc wst wev_nocap wargs false).result
        = .error (.ticket .MissingCapacityAttribute)
      ∧ (create_ticket wacc wst wev_badcap wargs false).result
          = .error (.ticket .NumericalOverflow) :=
  ⟨(C8_capacity_errors wacc wst wev_nocap wargs false).1 (by rfl),
   (C8_capacity_errors wacc wst wev_badcap wargs false).2
     { key := "Capacity", value := "abc" } (by rfl) (by rfl)⟩

theorem C9_capacity_is_u32_witness :
    (create_ticket wacc wst wev_bigcap wargs false).result
        = .error (.ticket .NumericalOverflow) :=
  C9_capacity_is_u32 wacc wst wev_bigcap wargs false
    { key := "Capacity", value := "4294967296" } (by rfl) (by decide) (by decide) (by decide)

theorem C10_owner_authority_seeds_witness :
    ∃ call, wst1.assets = wst.assets ++ [call]
      ∧ call.owner = some wacc.payer
      ∧ call.authority = some wacc.manager
      ∧ call.signer_seeds
          = [Seed.tag "manager", Seed.account wacc.organizer,
             Seed.bumpByte wacc.manager_bump] :=
  C10_owner_authority_seeds wacc wst wev wargs false wst1 (by rfl)
